import Mathlib

/-!
Verification development for the Orders page of the borrowpladv repository
(src/src/pages/Orders.tsx). The page loads two merged order lists
("borrowed" and "lent"), each the concatenation of a mapped item-order
query result and a mapped service-order query result, and renders an
order card whose action controls are derived from the order status and
the viewpoint. All definitions below are direct shallow embeddings of
the TypeScript source.
-/

namespace Orders

/-- The two viewpoints of the page, the `viewType` prop of `OrderCard`
(string union `'borrowed' | 'lent'` in the source). -/
inductive ViewType where
  | borrowed
  | lent
deriving DecidableEq, Repr

/-- A joined listing row: `listings(title, images, type)` in the select.
Fields are optional to model JS null/undefined coming back from the join. -/
structure Listing where
  title : Option String
  images : Option (List String)
  listingType : Option String
deriving DecidableEq, Repr

/-- A joined profile row: `profiles(name, avatar_url)`. -/
structure Profile where
  name : Option String
  avatar_url : Option String
deriving DecidableEq, Repr

/-- The base columns of an order row selected by `*` from `orders` or
`service_orders`. `final_amount` is doubly optional: the outer `none`
models the column being absent from the row (JS `undefined`), `some none`
models SQL NULL, `some (some x)` a numeric value. `rawType` models a
`type` column that may be present on the raw record before the loader
overrides it. -/
structure OrderBase where
  id : String
  status : String
  final_amount : Option (Option ℚ)
  quantity : Option Nat
  notes : Option String
  created_at : String
  rawType : Option String
deriving DecidableEq, Repr

/-- A row of the borrowed item-order query: `*` plus the joined
`listings` and the joined `seller` profile. -/
structure BorrowedItemRow where
  base : OrderBase
  listings : Option Listing
  seller : Option Profile
deriving DecidableEq, Repr

/-- A row of the borrowed service-order query: `*` plus the joined
listing aliased `services` and the joined `provider` profile. -/
structure BorrowedServiceRow where
  base : OrderBase
  services : Option Listing
  provider : Option Profile
deriving DecidableEq, Repr

/-- A row of the lent item-order query: `*` plus the joined `listings`
and the joined `buyer` profile. -/
structure LentItemRow where
  base : OrderBase
  listings : Option Listing
  buyer : Option Profile
deriving DecidableEq, Repr

/-- A row of the lent service-order query: `*` plus the joined listing
aliased `services` and the joined `buyer` profile. -/
structure LentServiceRow where
  base : OrderBase
  services : Option Listing
  buyer : Option Profile
deriving DecidableEq, Repr

/-- The merged view-model record produced by each loader: the spread
base columns, the discriminator `type` written last in the object
literal (so it overrides any raw `type`), and the normalized `listing`
and `otherUser` references. -/
structure MergedOrder where
  base : OrderBase
  type : String
  listing : Option Listing
  otherUser : Option Profile
deriving DecidableEq, Repr

/-- A supabase query response: an `error` field and a nullable `data`
field, as destructured by the loaders. -/
structure SupabaseResponse (α : Type) where
  error : Option String
  data : Option (List α)
deriving DecidableEq, Repr

/-- Borrowed loader, item branch: `{...o, type: 'item', listing: o.listings,
otherUser: o.seller}` (Orders.tsx lines 63-68). -/
def mergeBorrowedItem (o : BorrowedItemRow) : MergedOrder :=
  { base := o.base, type := "item", listing := o.listings, otherUser := o.seller }

/-- Borrowed loader, service branch: `{...o, type: 'service', listing:
o.services, otherUser: o.provider}` (lines 70-75). -/
def mergeBorrowedService (o : BorrowedServiceRow) : MergedOrder :=
  { base := o.base, type := "service", listing := o.services, otherUser := o.provider }

/-- Lent loader, item branch: `{...o, type: 'item', listing: o.listings,
otherUser: o.buyer}` (lines 117-122). -/
def mergeLentItem (o : LentItemRow) : MergedOrder :=
  { base := o.base, type := "item", listing := o.listings, otherUser := o.buyer }

/-- Lent loader, service branch: `{...o, type: 'service', listing:
o.services, otherUser: o.buyer}` (lines 124-129). -/
def mergeLentService (o : LentServiceRow) : MergedOrder :=
  { base := o.base, type := "service", listing := o.services, otherUser := o.buyer }

/-- The try-block of the borrowed queryFn after both sub-queries settle:
throw on either error, otherwise map-and-concatenate (lines 60-77). -/
def borrowedOrdersBody (itemsRes : SupabaseResponse BorrowedItemRow)
    (servicesRes : SupabaseResponse BorrowedServiceRow) :
    Except String (List MergedOrder) :=
  match itemsRes.error with
  | some e => .error e
  | none =>
    match servicesRes.error with
    | some e => .error e
    | none =>
      .ok ((itemsRes.data.getD []).map mergeBorrowedItem
            ++ (servicesRes.data.getD []).map mergeBorrowedService)

/-- The borrowed queryFn: the try-block with the catch that logs and
resolves to the empty list (lines 37-81). -/
def borrowedOrdersQueryFn (itemsRes : SupabaseResponse BorrowedItemRow)
    (servicesRes : SupabaseResponse BorrowedServiceRow) : List MergedOrder :=
  match borrowedOrdersBody itemsRes servicesRes with
  | .ok l => l
  | .error _ => []

/-- The try-block of the lent queryFn (lines 114-131). -/
def lentOrdersBody (itemsRes : SupabaseResponse LentItemRow)
    (servicesRes : SupabaseResponse LentServiceRow) :
    Except String (List MergedOrder) :=
  match itemsRes.error with
  | some e => .error e
  | none =>
    match servicesRes.error with
    | some e => .error e
    | none =>
      .ok ((itemsRes.data.getD []).map mergeLentItem
            ++ (servicesRes.data.getD []).map mergeLentService)

/-- The lent queryFn: the try-block with the catch that logs and resolves
to the empty list (lines 91-135). -/
def lentOrdersQueryFn (itemsRes : SupabaseResponse LentItemRow)
    (servicesRes : SupabaseResponse LentServiceRow) : List MergedOrder :=
  match lentOrdersBody itemsRes servicesRes with
  | .ok l => l
  | .error _ => []

/-- `getStatusColor` (lines 140-150): a switch on the status string with
a default branch. -/
def getStatusColor (status : String) : String :=
  if status = "pending" then "default"
  else if status = "accepted" then "secondary"
  else if status = "paid" then "default"
  else if status = "active" then "default"
  else if status = "completed" then "outline"
  else if status = "cancelled" then "destructive"
  else "default"

/-- `isOwner = viewType === 'lent'` (line 158). -/
def isOwner (viewType : ViewType) : Bool :=
  viewType == ViewType.lent

/-- `canAcceptDeny = isOwner && order.status === 'pending'` (line 159). -/
def canAcceptDeny (status : String) (viewType : ViewType) : Bool :=
  isOwner viewType && status == "pending"

/-- `canPay = !isOwner && order.status === 'accepted'` (line 160). -/
def canPay (status : String) (viewType : ViewType) : Bool :=
  !isOwner viewType && status == "accepted"

/-- `canChat = ['accepted','paid','active','completed'].includes(order.status)`
(line 161). -/
def canChat (status : String) : Bool :=
  (["accepted", "paid", "active", "completed"] : List String).contains status

/-- A JS number: either NaN or a rational value (floating-point rounding
does not matter for the properties below). -/
inductive JsNumber where
  | nan
  | val (x : ℚ)
deriving DecidableEq, Repr

/-- `Number(order.final_amount)`: `Number(undefined)` is NaN,
`Number(null)` is 0, a number converts to itself. -/
def jsNumberOfAmount : Option (Option ℚ) → JsNumber
  | none => .nan
  | some none => .val 0
  | some (some x) => .val x

/-- The refetch counters of the two queries; invoking a refetch function
is modelled as incrementing the matching counter. -/
structure QueryState where
  borrowedFetches : Nat
  lentFetches : Nat
deriving DecidableEq, Repr

/-- `refetchBorrowed()` of the borrowed useQuery. -/
def refetchBorrowed (s : QueryState) : QueryState :=
  { s with borrowedFetches := s.borrowedFetches + 1 }

/-- `refetchLent()` of the lent useQuery. -/
def refetchLent (s : QueryState) : QueryState :=
  { s with lentFetches := s.lentFetches + 1 }

/-- `handleOrderUpdate` (lines 152-155): calls refetchBorrowed then
refetchLent. -/
def handleOrderUpdate (s : QueryState) : QueryState :=
  refetchLent (refetchBorrowed s)

/-- The props the card passes to the accept/deny control `OrderActions`
(lines 219-223). -/
structure OrderActionsProps where
  orderId : String
  orderType : String
  onActionComplete : QueryState → QueryState

/-- The props the card passes to `PaymentButton` (lines 227-231). -/
structure PaymentButtonProps where
  orderId : String
  orderType : String
  amount : JsNumber
deriving DecidableEq, Repr

/-- The accept/deny control mounted by the card: present exactly when
canAcceptDeny, with handleOrderUpdate wired as onActionComplete
(lines 218-224). -/
def orderActionsControl (o : MergedOrder) (viewType : ViewType) : Option OrderActionsProps :=
  if canAcceptDeny o.base.status viewType then
    some { orderId := o.base.id, orderType := o.type,
           onActionComplete := handleOrderUpdate }
  else none

/-- The payment control mounted by the card: present exactly when
canPay, with amount `Number(order.final_amount)` (lines 226-232). -/
def paymentButtonControl (o : MergedOrder) (viewType : ViewType) : Option PaymentButtonProps :=
  if canPay o.base.status viewType then
    some { orderId := o.base.id, orderType := o.type,
           amount := jsNumberOfAmount o.base.final_amount }
  else none

/-- Whether the message button is mounted: `canChat` (lines 234-243). -/
def messageButtonMounted (o : MergedOrder) : Bool :=
  canChat o.base.status

/-- The rendered title: `order.listing?.title || 'Untitled'` (line 169);
a missing listing, a missing title and an empty title are all falsy. -/
def cardTitle (o : MergedOrder) : String :=
  match o.listing with
  | none => "Untitled"
  | some l =>
    match l.title with
    | none => "Untitled"
    | some t => if t = "" then "Untitled" else t

/-- The rendered counterparty name: `order.otherUser?.name || 'Unknown'`
(lines 173-174). -/
def cardCounterpartyName (o : MergedOrder) : String :=
  match o.otherUser with
  | none => "Unknown"
  | some p =>
    match p.name with
    | none => "Unknown"
    | some n => if n = "" then "Unknown" else n

/-- Whether the image element renders: `order.listing?.images?.[0] && ...`
(line 183) — requires a listing, an images array, a first element, and
that element truthy. -/
def rendersImage (o : MergedOrder) : Bool :=
  match o.listing with
  | none => false
  | some l =>
    match l.images with
    | none => false
    | some imgs =>
      match imgs.head? with
      | none => false
      | some u => decide (u ≠ "")

/-- Whether the Amount row renders: `order.final_amount && ...`
(line 192) — absent, null and 0 are all falsy. -/
def rendersAmountRow (o : MergedOrder) : Bool :=
  match o.base.final_amount with
  | some (some x) => decide (x ≠ 0)
  | _ => false

/-- A concrete pending merged order with no joined data, used as a test
input. -/
def samplePendingOrder : MergedOrder :=
  { base := { id := "o1", status := "pending", final_amount := none,
              quantity := none, notes := none, created_at := "t0", rawType := none },
    type := "item", listing := none, otherUser := none }

/-- The accept/deny props the card passes for `samplePendingOrder`
viewed as lent. -/
def samplePendingProps : OrderActionsProps :=
  { orderId := "o1", orderType := "item", onActionComplete := handleOrderUpdate }

end Orders

namespace Orders

/-- C1: the three permission booleans of the order card are a pure
function of (status, viewType): canAcceptDeny holds exactly for
(pending, lent), canPay exactly for (accepted, borrowed), canChat
exactly for status in {accepted, paid, active, completed}; for
status "cancelled" all three are false for both viewTypes. -/
theorem permission_booleans_characterized (status : String) (viewType : ViewType) :
    (canAcceptDeny status viewType = true ↔
      (viewType = ViewType.lent ∧ status = "pending"))
    ∧ (canPay status viewType = true ↔
      (viewType = ViewType.borrowed ∧ status = "accepted"))
    ∧ (canChat status = true ↔
      (status = "accepted" ∨ status = "paid" ∨ status = "active" ∨ status = "completed"))
    ∧ (status = "cancelled" →
      canAcceptDeny status viewType = false ∧ canPay status viewType = false ∧
        canChat status = false) := by
  refine ⟨?_, ?_, ?_, ?_⟩
  · cases viewType <;> simp [canAcceptDeny, isOwner]
  · cases viewType <;> simp [canPay, isOwner]
  · simp [canChat, List.contains]
  · rintro rfl
    cases viewType <;> simp [canAcceptDeny, canPay, canChat, isOwner]

/-- Witness for C1 at a concrete input: status "cancelled", viewType lent. -/
theorem permission_booleans_characterized_witness :
    canAcceptDeny "cancelled" ViewType.lent = false ∧
      canPay "cancelled" ViewType.lent = false ∧ canChat "cancelled" = false :=
  (permission_booleans_characterized "cancelled" ViewType.lent).2.2.2 rfl

/-- C4: getStatusColor is total on strings, and every status outside the
mapped set {pending, accepted, paid, active, completed, cancelled} is
sent to the same value as getStatusColor "pending", namely "default". -/
theorem getStatusColor_default_for_unmapped (status : String)
    (h : status ∉ (["pending", "accepted", "paid", "active", "completed",
      "cancelled"] : List String)) :
    getStatusColor status = getStatusColor "pending" ∧
      getStatusColor "pending" = "default" := by
  simp only [List.mem_cons, List.not_mem_nil, or_false, not_or] at h
  obtain ⟨h1, h2, h3, h4, h5, h6⟩ := h
  constructor
  · simp [getStatusColor, h1, h2, h3, h4, h5, h6]
  · rfl

/-- Witness for C4 at the concrete unmapped status "shipped". -/
theorem getStatusColor_default_for_unmapped_witness :
    getStatusColor "shipped" = getStatusColor "pending" ∧
      getStatusColor "pending" = "default" :=
  getStatusColor_default_for_unmapped "shipped" (by decide)

/-- C2: for each loader, if either sub-query reports an error the whole
result is the empty list — no partial merge — and the failure is not
propagated: the queryFn is a total function into lists, the catch block
converts the thrown error into the empty list. -/
theorem loader_empty_on_subquery_error
    (bi : SupabaseResponse BorrowedItemRow) (bs : SupabaseResponse BorrowedServiceRow)
    (li : SupabaseResponse LentItemRow) (ls : SupabaseResponse LentServiceRow)
    (hb : bi.error.isSome = true ∨ bs.error.isSome = true)
    (hl : li.error.isSome = true ∨ ls.error.isSome = true) :
    borrowedOrdersQueryFn bi bs = [] ∧ lentOrdersQueryFn li ls = [] := by
  constructor
  · rcases hb with h | h
    · rw [Option.isSome_iff_exists] at h
      obtain ⟨e, he⟩ := h
      simp [borrowedOrdersQueryFn, borrowedOrdersBody, he]
    · rw [Option.isSome_iff_exists] at h
      obtain ⟨e, he⟩ := h
      cases hbi : bi.error with
      | some e2 => simp [borrowedOrdersQueryFn, borrowedOrdersBody, hbi]
      | none => simp [borrowedOrdersQueryFn, borrowedOrdersBody, hbi, he]
  · rcases hl with h | h
    · rw [Option.isSome_iff_exists] at h
      obtain ⟨e, he⟩ := h
      simp [lentOrdersQueryFn, lentOrdersBody, he]
    · rw [Option.isSome_iff_exists] at h
      obtain ⟨e, he⟩ := h
      cases hli : li.error with
      | some e2 => simp [lentOrdersQueryFn, lentOrdersBody, hli]
      | none => simp [lentOrdersQueryFn, lentOrdersBody, hli, he]

/-- Witness for C2: both loaders on responses whose item sub-query
carries an error. -/
theorem loader_empty_on_subquery_error_witness :
    borrowedOrdersQueryFn ⟨some "boom", none⟩ ⟨none, some []⟩ = [] ∧
      lentOrdersQueryFn ⟨some "boom", none⟩ ⟨none, some []⟩ = [] :=
  loader_empty_on_subquery_error _ _ _ _ (Or.inl rfl) (Or.inl rfl)

/-- C3: every record of either loader result is tagged with type "item"
or "service"; the tag of each branch is fixed ("item" for the item-order
branch, "service" for the service-order branch) regardless of any raw
type value on the source row. -/
theorem merged_records_tagged
    (bi : SupabaseResponse BorrowedItemRow) (bs : SupabaseResponse BorrowedServiceRow)
    (li : SupabaseResponse LentItemRow) (ls : SupabaseResponse LentServiceRow) :
    (∀ r ∈ borrowedOrdersQueryFn bi bs, r.type = "item" ∨ r.type = "service")
    ∧ (∀ r ∈ lentOrdersQueryFn li ls, r.type = "item" ∨ r.type = "service")
    ∧ (∀ o : BorrowedItemRow, (mergeBorrowedItem o).type = "item")
    ∧ (∀ o : BorrowedServiceRow, (mergeBorrowedService o).type = "service")
    ∧ (∀ o : LentItemRow, (mergeLentItem o).type = "item")
    ∧ (∀ o : LentServiceRow, (mergeLentService o).type = "service") := by
  refine ⟨?_, ?_, fun _ => rfl, fun _ => rfl, fun _ => rfl, fun _ => rfl⟩
  · intro r hr
    unfold borrowedOrdersQueryFn borrowedOrdersBody at hr
    cases hbi : bi.error with
    | some e => rw [hbi] at hr; simp at hr
    | none =>
      rw [hbi] at hr
      cases hbs : bs.error with
      | some e => rw [hbs] at hr; simp at hr
      | none =>
        rw [hbs] at hr
        simp only [List.mem_append, List.mem_map] at hr
        rcases hr with ⟨o, _, rfl⟩ | ⟨o, _, rfl⟩
        · exact Or.inl rfl
        · exact Or.inr rfl
  · intro r hr
    unfold lentOrdersQueryFn lentOrdersBody at hr
    cases hli : li.error with
    | some e => rw [hli] at hr; simp at hr
    | none =>
      rw [hli] at hr
      cases hls : ls.error with
      | some e => rw [hls] at hr; simp at hr
      | none =>
        rw [hls] at hr
        simp only [List.mem_append, List.mem_map] at hr
        rcases hr with ⟨o, _, rfl⟩ | ⟨o, _, rfl⟩
        · exact Or.inl rfl
        · exact Or.inr rfl

/-- Witness for C3: a concrete borrowed result with one item row; its
single record is tagged "item". -/
theorem merged_records_tagged_witness :
    (mergeBorrowedItem ⟨⟨"o1", "pending", none, none, none, "t0", some "weird"⟩,
        none, none⟩).type = "item" ∨
      (mergeBorrowedItem ⟨⟨"o1", "pending", none, none, none, "t0", some "weird"⟩,
        none, none⟩).type = "service" :=
  (merged_records_tagged
      ⟨none, some [⟨⟨"o1", "pending", none, none, none, "t0", some "weird"⟩, none, none⟩]⟩
      ⟨none, some []⟩ ⟨none, some []⟩ ⟨none, some []⟩).1 _ (by decide)

/-- C5: when both sub-queries succeed, each loader result is exactly the
mapped item list concatenated with the mapped service list, in that
order — order within each sub-list is preserved by the map and no
cross-list re-sort happens. -/
theorem loader_is_concat_on_success
    (bi : SupabaseResponse BorrowedItemRow) (bs : SupabaseResponse BorrowedServiceRow)
    (li : SupabaseResponse LentItemRow) (ls : SupabaseResponse LentServiceRow)
    (hbi : bi.error = none) (hbs : bs.error = none)
    (hli : li.error = none) (hls : ls.error = none) :
    borrowedOrdersQueryFn bi bs =
      (bi.data.getD []).map mergeBorrowedItem ++ (bs.data.getD []).map mergeBorrowedService
    ∧ lentOrdersQueryFn li ls =
      (li.data.getD []).map mergeLentItem ++ (ls.data.getD []).map mergeLentService := by
  constructor
  · simp [borrowedOrdersQueryFn, borrowedOrdersBody, hbi, hbs]
  · simp [lentOrdersQueryFn, lentOrdersBody, hli, hls]

/-- Witness for C5 at concrete successful responses with one row each. -/
theorem loader_is_concat_on_success_witness :
    borrowedOrdersQueryFn
        ⟨none, some [⟨⟨"a", "pending", none, none, none, "t1", none⟩, none, none⟩]⟩
        ⟨none, some [⟨⟨"b", "accepted", none, none, none, "t2", none⟩, none, none⟩]⟩ =
      [mergeBorrowedItem ⟨⟨"a", "pending", none, none, none, "t1", none⟩, none, none⟩,
        mergeBorrowedService ⟨⟨"b", "accepted", none, none, none, "t2", none⟩, none, none⟩]
    ∧ lentOrdersQueryFn ⟨none, some []⟩ ⟨none, some []⟩ = [] :=
  (loader_is_concat_on_success
      ⟨none, some [⟨⟨"a", "pending", none, none, none, "t1", none⟩, none, none⟩]⟩
      ⟨none, some [⟨⟨"b", "accepted", none, none, none, "t2", none⟩, none, none⟩]⟩
      ⟨none, some []⟩ ⟨none, some []⟩ rfl rfl rfl rfl)

/-- C8: the merged view model's otherUser is the seller profile for
borrowed items, the provider profile for borrowed services, and the
buyer profile for lent items and lent services; the joined listing lands
under the single listing key in all four cases. -/
theorem otherUser_is_counterparty
    (a : BorrowedItemRow) (b : BorrowedServiceRow)
    (c : LentItemRow) (d : LentServiceRow) :
    ((mergeBorrowedItem a).otherUser = a.seller ∧ (mergeBorrowedItem a).listing = a.listings)
    ∧ ((mergeBorrowedService b).otherUser = b.provider
        ∧ (mergeBorrowedService b).listing = b.services)
    ∧ ((mergeLentItem c).otherUser = c.buyer ∧ (mergeLentItem c).listing = c.listings)
    ∧ ((mergeLentService d).otherUser = d.buyer ∧ (mergeLentService d).listing = d.services) :=
  ⟨⟨rfl, rfl⟩, ⟨rfl, rfl⟩, ⟨rfl, rfl⟩, ⟨rfl, rfl⟩⟩

/-- C6: the callback the card wires into the accept/deny control as
onActionComplete is handleOrderUpdate, and every invocation of it
increments both the borrowed and the lent fetch counters — both result
sets are re-requested. -/
theorem action_complete_refetches_both
    (o : MergedOrder) (viewType : ViewType) (p : OrderActionsProps)
    (hp : orderActionsControl o viewType = some p) (s : QueryState) :
    p.onActionComplete = handleOrderUpdate
    ∧ (p.onActionComplete s).borrowedFetches = s.borrowedFetches + 1
    ∧ (p.onActionComplete s).lentFetches = s.lentFetches + 1 := by
  unfold orderActionsControl at hp
  split at hp
  · cases hp
    exact ⟨rfl, rfl, rfl⟩
  · cases hp

/-- Witness for C6: a pending order viewed as lent mounts the control and
its callback bumps both counters from (0, 0) to (1, 1). -/
theorem action_complete_refetches_both_witness :
    samplePendingProps.onActionComplete = handleOrderUpdate
    ∧ (samplePendingProps.onActionComplete ⟨0, 0⟩).borrowedFetches = 0 + 1
    ∧ (samplePendingProps.onActionComplete ⟨0, 0⟩).lentFetches = 0 + 1 :=
  action_complete_refetches_both samplePendingOrder ViewType.lent
    samplePendingProps rfl ⟨0, 0⟩

/-- C7: rendering an order card is total, and missing related data falls
back to defaults: a missing listing or missing title renders "Untitled",
a missing counterparty or missing name renders "Unknown", and a missing
or empty image list renders no image element. -/
theorem card_defaults_on_missing_data (o : MergedOrder) :
    ((o.listing = none ∨ Option.bind o.listing Listing.title = none) →
      cardTitle o = "Untitled")
    ∧ ((o.otherUser = none ∨ Option.bind o.otherUser Profile.name = none) →
      cardCounterpartyName o = "Unknown")
    ∧ ((o.listing = none ∨ Option.bind o.listing Listing.images = none
        ∨ Option.bind o.listing Listing.images = some []) →
      rendersImage o = false) := by
  refine ⟨?_, ?_, ?_⟩
  · intro h
    cases hl : o.listing with
    | none => simp [cardTitle, hl]
    | some l =>
      rw [hl] at h
      simp at h
      simp [cardTitle, hl, h]
  · intro h
    cases hu : o.otherUser with
    | none => simp [cardCounterpartyName, hu]
    | some p =>
      rw [hu] at h
      simp at h
      simp [cardCounterpartyName, hu, h]
  · intro h
    cases hl : o.listing with
    | none => simp [rendersImage, hl]
    | some l =>
      rw [hl] at h
      simp at h
      rcases h with h | h <;> simp [rendersImage, hl, h]

/-- Witness for C7: an order with no listing and no counterparty renders
"Untitled", "Unknown" and no image. -/
theorem card_defaults_on_missing_data_witness :
    cardTitle ⟨⟨"o1", "pending", none, none, none, "t0", none⟩, "item", none, none⟩ =
        "Untitled"
    ∧ cardCounterpartyName
        ⟨⟨"o1", "pending", none, none, none, "t0", none⟩, "item", none, none⟩ = "Unknown"
    ∧ rendersImage ⟨⟨"o1", "pending", none, none, none, "t0", none⟩, "item", none, none⟩ =
        false :=
  ⟨(card_defaults_on_missing_data _).1 (Or.inl rfl),
    (card_defaults_on_missing_data
      ⟨⟨"o1", "pending", none, none, none, "t0", none⟩, "item", none, none⟩).2.1
      (Or.inl rfl),
    (card_defaults_on_missing_data
      ⟨⟨"o1", "pending", none, none, none, "t0", none⟩, "item", none, none⟩).2.2
      (Or.inl rfl)⟩

/-- C9: the accept/deny control and the payment control are never both
mounted (canAcceptDeny needs viewType lent, canPay needs viewType
borrowed), and whenever canAcceptDeny holds, canPay and canChat are
false (pending is not a messaging status). -/
theorem accept_pay_never_both (o : MergedOrder) (viewType : ViewType) :
    ¬(canAcceptDeny o.base.status viewType = true
        ∧ canPay o.base.status viewType = true)
    ∧ ¬((orderActionsControl o viewType).isSome = true
        ∧ (paymentButtonControl o viewType).isSome = true)
    ∧ (canAcceptDeny o.base.status viewType = true →
        canChat o.base.status = false) := by
  refine ⟨?_, ?_, ?_⟩
  · rintro ⟨ha, hp⟩
    cases viewType with
    | borrowed => simp [canAcceptDeny, isOwner] at ha
    | lent => simp [canPay, isOwner] at hp
  · rintro ⟨ha, hp⟩
    unfold orderActionsControl at ha
    split at ha
    next hc =>
      unfold paymentButtonControl at hp
      split at hp
      next hc2 =>
        cases viewType with
        | borrowed => simp [canAcceptDeny, isOwner] at hc
        | lent => simp [canPay, isOwner] at hc2
      next => simp at hp
    next => simp at ha
  · intro h
    cases viewType with
    | borrowed => simp [canAcceptDeny, isOwner] at h
    | lent =>
      simp only [canAcceptDeny, isOwner, Bool.and_eq_true, beq_iff_eq] at h
      rw [h.2]
      decide

/-- Witness for C9: a pending order viewed as lent — its messaging
button is off and the two mutation controls are not both mounted. -/
theorem accept_pay_never_both_witness :
    canChat "pending" = false
    ∧ ¬((orderActionsControl samplePendingOrder ViewType.lent).isSome = true
        ∧ (paymentButtonControl samplePendingOrder ViewType.lent).isSome = true) :=
  ⟨(accept_pay_never_both samplePendingOrder ViewType.lent).2.2 rfl,
    (accept_pay_never_both samplePendingOrder ViewType.lent).2.1⟩

/-- C10: canPay ignores final_amount — an accepted order viewed as
borrowed always mounts the payment control, whose amount is
Number(final_amount) (0 when null, NaN when absent) — while the Amount
row is not rendered when final_amount is absent, null or 0. -/
theorem canPay_ignores_final_amount (o : MergedOrder)
    (hs : o.base.status = "accepted") :
    (paymentButtonControl o ViewType.borrowed).isSome = true
    ∧ (∀ p, paymentButtonControl o ViewType.borrowed = some p →
        p.amount = jsNumberOfAmount o.base.final_amount)
    ∧ jsNumberOfAmount (some none) = JsNumber.val 0
    ∧ jsNumberOfAmount none = JsNumber.nan
    ∧ ((o.base.final_amount = none ∨ o.base.final_amount = some none
        ∨ o.base.final_amount = some (some 0)) → rendersAmountRow o = false) := by
  refine ⟨?_, ?_, rfl, rfl, ?_⟩
  · simp [paymentButtonControl, canPay, isOwner, hs]
  · intro p hp
    unfold paymentButtonControl at hp
    split at hp
    · cases hp; rfl
    · cases hp
  · rintro (h | h | h) <;> simp [rendersAmountRow, h]

/-- Witness for C10: an accepted order with a null final_amount mounts
the payment control with amount 0 and renders no Amount row. -/
theorem canPay_ignores_final_amount_witness :
    (paymentButtonControl
        ⟨⟨"o2", "accepted", some none, none, none, "t0", none⟩, "item", none, none⟩
        ViewType.borrowed).isSome = true
    ∧ jsNumberOfAmount (some none) = JsNumber.val 0
    ∧ jsNumberOfAmount none = JsNumber.nan
    ∧ rendersAmountRow
        ⟨⟨"o2", "accepted", some none, none, none, "t0", none⟩, "item", none, none⟩ =
      false := by
  have h := canPay_ignores_final_amount
    ⟨⟨"o2", "accepted", some none, none, none, "t0", none⟩, "item", none, none⟩ rfl
  exact ⟨h.1, h.2.2.1, h.2.2.2.1, h.2.2.2.2 (Or.inr (Or.inl rfl))⟩

end Orders
